import Mathlib

/-!
Verification of the heart-disease prediction form (src/app.py).

The app renders an input form, encodes the categorical labels through fixed
lookup tables, calls a pre-trained classifier, and renders a gauge, a
cholesterol bar and a downloadable CSV report.  Below, every definition is a
shallow embedding of the corresponding fragment of src/app.py; the trained
model itself is an external artifact and is represented as an abstract pair
of functions (predict and predict_proba).
-/

namespace HeartApp

/-! ## Form widgets (src/app.py lines 38-54) -/

/-- Options of the Gender selectbox (line 39). -/
def sexOptions : List String := ["Male", "Female"]

/-- Options of the Chest Pain Type selectbox (line 40). -/
def cpOptions : List String :=
  ["Typical Angina", "Atypical Angina", "Non Anginal Pain", "Asymptomatic"]

/-- Options of the Fasting Blood Sugar selectbox (line 41). -/
def fbsOptions : List String := ["False", "True"]

/-- Options of the Resting ECG Result selectbox (line 42). -/
def restecgOptions : List String :=
  ["Abnormality", "Normal", "Left ventricular hypertrophy"]

/-- Options of the Exercise Induced Angina selectbox (line 43). -/
def exerciseOptions : List String := ["No pain", "Pain"]

/-- Options of the Slope of ST Segment selectbox (line 50). -/
def slopeOptions : List String := ["Downsloping", "Upsloping", "Flat"]

/-- Options of the Number of Major Vessels Colored selectbox (lines 51-52). -/
def caOptions : List String :=
  ["Normal", "One vessel colored", "Two vessels colored",
   "Three vessels colored", "Four vessel colored"]

/-- Options of the Thalassemia selectbox (line 54). -/
def thalOptions : List String :=
  ["Reversible defect", "Normal", "Fixed Defect", "Unknown"]

/-- Age number input bounds: min_value=1, max_value=120 (line 38).
The widget accepts a value exactly when it lies inside the bounds. -/
def ageAccepted (a : ℤ) : Bool := 1 ≤ a && a ≤ 120

/-- Resting blood pressure bounds: min_value=80, max_value=200 (line 46). -/
def trestbpsAccepted (x : ℤ) : Bool := 80 ≤ x && x ≤ 200

/-- Cholesterol bounds: min_value=100, max_value=600 (line 47). -/
def cholAccepted (x : ℤ) : Bool := 100 ≤ x && x ≤ 600

/-- Max heart rate bounds: min_value=60, max_value=220 (line 48). -/
def thalachAccepted (x : ℤ) : Bool := 60 ≤ x && x ≤ 220

/-- ST depression (oldpeak) bounds: min_value=0.0, max_value=10.0 (line 49). -/
def oldpeakAccepted (x : ℚ) : Bool := 0 ≤ x && x ≤ 10

/-! ## Categorical encoding (src/app.py lines 60-66) -/

/-- sex_code = 1 if sex == "Male" else 0 (line 60). -/
def sex_code (sex : String) : ℤ := if sex = "Male" then 1 else 0

/-- int(fbs == "True") (line 70). -/
def fbs_code (fbs : String) : ℤ := if fbs = "True" then 1 else 0

/-- cp_map (line 61). -/
def cp_map : List (String × ℤ) :=
  [("Typical Angina", 3), ("Atypical Angina", 1),
   ("Non Anginal Pain", 2), ("Asymptomatic", 0)]

/-- restecg_map (line 62). -/
def restecg_map : List (String × ℤ) :=
  [("Abnormality", 0), ("Normal", 1), ("Left ventricular hypertrophy", 2)]

/-- exang_map (line 63). -/
def exang_map : List (String × ℤ) := [("No pain", 0), ("Pain", 1)]

/-- slope_map (line 64). -/
def slope_map : List (String × ℤ) :=
  [("Downsloping", 0), ("Upsloping", 2), ("Flat", 1)]

/-- ca_map (line 65). -/
def ca_map : List (String × ℤ) :=
  [("Normal", 0), ("One vessel colored", 1), ("Two vessels colored", 2),
   ("Three vessels colored", 3), ("Four vessel colored", 4)]

/-- thal_map (line 66). -/
def thal_map : List (String × ℤ) :=
  [("Reversible defect", 2), ("Normal", 1), ("Fixed Defect", 0), ("Unknown", 3)]

/-! ## Patient input and the encoded feature row (src/app.py lines 68-78) -/

/-- One submission of the form: five numeric fields and eight categorical
labels, exactly the variables read from the widgets. -/
structure PatientInput where
  age : ℤ
  sex : String
  cp : String
  fbs : String
  restecg : String
  exercise : String
  trestbps : ℤ
  chol : ℤ
  thalach : ℤ
  oldpeak : ℚ
  slope : String
  ca : String
  thal : String
deriving Repr, DecidableEq

/-- Column names of input_data (lines 73-78). -/
def inputColumns : List String :=
  ["age", "trestbps", "chol", "thalach", "oldpeak",
   "encoded_sex", "encoded_cp", "encoded_fbs",
   "encoded_restecg", "encoded_exang", "encoded_slope",
   "encoded_ca", "encoded_thal"]

/-- The single row of input_data (lines 68-72).  Each dictionary subscript of
the Python code is a lookup that raises KeyError when the key is absent, so
the row is only produced when every lookup succeeds. -/
def encodeRow (p : PatientInput) : Option (List ℚ) :=
  match cp_map.lookup p.cp, restecg_map.lookup p.restecg,
        exang_map.lookup p.exercise, slope_map.lookup p.slope,
        ca_map.lookup p.ca, thal_map.lookup p.thal with
  | some cpc, some rc, some exc, some slc, some cac, some thc =>
      some [(p.age : ℚ), (p.trestbps : ℚ), (p.chol : ℚ), (p.thalach : ℚ),
            p.oldpeak, (sex_code p.sex : ℚ), (cpc : ℚ), (fbs_code p.fbs : ℚ),
            (rc : ℚ), (exc : ℚ), (slc : ℚ), (cac : ℚ), (thc : ℚ)]
  | _, _, _, _, _, _ => none

/-- The concrete patient of the spec scenario. -/
def scenarioPatient : PatientInput :=
  { age := 63, sex := "Male", cp := "Typical Angina", fbs := "True",
    restecg := "Normal", exercise := "No pain", trestbps := 145,
    chol := 233, thalach := 150, oldpeak := 23/10,
    slope := "Downsloping", ca := "Normal", thal := "Fixed Defect" }

/-! ## Risk gauge (src/app.py lines 94-105) -/

/-- One background step of the plotly gauge: a closed range and a color. -/
structure GaugeStep where
  lo : ℚ
  hi : ℚ
  color : String
deriving Repr, DecidableEq

/-- The two steps of the gauge (lines 100-102): range [0, 0.5] colored
"#c8f7c5" (low risk) and range [0.5, 1] colored "#f9c0c0" (high risk). -/
def gaugeSteps : List GaugeStep :=
  [⟨0, 1/2, "#c8f7c5"⟩, ⟨1/2, 1, "#f9c0c0"⟩]

/-- The needle value of the gauge indicator is the probability (line 96). -/
def gaugeValue (probability : ℚ) : ℚ := probability

/-- The bar color of the gauge (line 99): red if prediction == 1 else green. -/
def gaugeBarColor (prediction : ℤ) : String :=
  if prediction = 1 then "red" else "green"

/-- Modelled from the spec: the rendering of plotly.graph_objects.Indicator is
outside src/.  Steps are painted in list order, each over the previous ones,
so the visible band at a value is the color of the LAST listed step whose
closed range contains the value; the step data itself is taken verbatim from
lines 100-102. -/
def bandAt (steps : List GaugeStep) (p : ℚ) : Option String :=
  ((steps.filter fun s => decide (s.lo ≤ p) && decide (p ≤ s.hi)).getLast?).map
    GaugeStep.color

/-! ## Cholesterol bar (src/app.py lines 108-114) -/

/-- The bar color (line 110): salmon if chol > 200 else seagreen. -/
def cholBarColor (chol : ℤ) : String :=
  if chol > 200 then "salmon" else "seagreen"

/-- Position of the dashed reference line ax.axvline (line 111). -/
def cholReferenceLine : ℤ := 200

/-! ## Report building and download (src/app.py lines 117-124) -/

/-- Rounding of a rational to the nearest integer, ties to even: the
behavior of the builtin round of Python on exact values. -/
def roundHalfEven (x : ℚ) : ℤ :=
  let f := ⌊x⌋
  let r := x - f
  if r < 1/2 then f
  else if 1/2 < r then f + 1
  else if f % 2 = 0 then f else f + 1

/-- round(y, 2) of Python (line 121): round to two decimal places. -/
def round2 (y : ℚ) : ℚ := (roundHalfEven (y * 100) : ℚ) / 100

/-- The downloadable report: the dataframe written by to_csv with a header
row (index=False drops the index), the fixed file name and the MIME type
passed to st.download_button (lines 119-124). -/
structure Report where
  columns : List String
  rows : List (List ℚ)
  fileName : String
  mime : String
deriving Repr, DecidableEq

/-- report_df (lines 119-121): a copy of input_data with a prediction column
and a risk_percent column equal to round(probability * 100, 2) appended, in
that order, offered as heart_risk_report.csv with MIME text/csv (line 124). -/
def buildReport (row : List ℚ) (prediction : ℤ) (probability : ℚ) : Report :=
  { columns := inputColumns ++ ["prediction", "risk_percent"]
    rows := [row ++ [(prediction : ℚ), round2 (probability * 100)]]
    fileName := "heart_risk_report.csv"
    mime := "text/csv" }

/-! ## Whole-script control flow (src/app.py lines 9-13, 34-58, 80-125) -/

/-- The loaded classifier, abstract: predict returns the label of the row,
predict_proba the probability of the positive class (lines 83-84). -/
structure Model where
  predict : List ℚ → ℤ
  predictProba : List ℚ → ℚ

/-- Observable outcome of one run of the script. -/
structure AppOutput where
  errorShown : Bool
  halted : Bool
  formRendered : Bool
  predictionMade : Bool
  report : Option Report

/-- One top-to-bottom run of the script.  loadResult is none when
pkl.load raises (lines 9-13): then st.error shows a message and st.stop
halts the script before the form of line 34 is rendered, so no prediction
and no report happen.  Otherwise the form is rendered; on submission the
row is encoded, the model is invoked and the report is built (lines
58-125).  A failed dictionary lookup during encoding would raise, shown by
streamlit as an error after the already-rendered form. -/
def runApp (loadResult : Option Model) (submitted : Bool)
    (pt : PatientInput) : AppOutput :=
  match loadResult with
  | none =>
      { errorShown := true, halted := true, formRendered := false,
        predictionMade := false, report := none }
  | some m =>
      if submitted then
        match encodeRow pt with
        | some row =>
            { errorShown := false, halted := false, formRendered := true,
              predictionMade := true,
              report := some (buildReport row (m.predict row)
                (m.predictProba row)) }
        | none =>
            { errorShown := true, halted := true, formRendered := true,
              predictionMade := false, report := none }
      else
        { errorShown := false, halted := false, formRendered := true,
          predictionMade := false, report := none }

/-- A fixed stand-in classifier used to instantiate theorems at concrete
inputs: always label 1 with probability one half. -/
def constModel : Model := { predict := fun _ => 1, predictProba := fun _ => 1/2 }

/-! ## Helper lemmas -/

/-- A successfully encoded row always has the 13 feature entries. -/
theorem encodeRow_length (pt : PatientInput) (row : List ℚ)
    (h : encodeRow pt = some row) : row.length = 13 := by
  unfold encodeRow at h
  split at h
  · simp only [Option.some.injEq] at h
    subst h
    rfl
  · exact absurd h (by simp)

/-- The visible band of the gauge: low-risk color strictly below one half,
high-risk color from one half up. -/
theorem bandAt_gaugeSteps (p : ℚ) (h0 : 0 ≤ p) (h1 : p ≤ 1) :
    bandAt gaugeSteps p =
      some (if p < 1/2 then "#c8f7c5" else "#f9c0c0") := by
  unfold bandAt gaugeSteps
  by_cases hp : p < 1/2
  · rw [if_pos hp]
    rw [List.filter_cons_of_pos (by simp; exact ⟨h0, by linarith⟩),
        List.filter_cons_of_neg (by simp; intro h; linarith),
        List.filter_nil]
    rfl
  · rw [if_neg hp]
    have h2 : (1:ℚ)/2 ≤ p := not_lt.mp hp
    by_cases h3 : p ≤ 1/2
    · rw [List.filter_cons_of_pos (by simp; exact ⟨h0, by linarith⟩),
          List.filter_cons_of_pos (by simp; exact ⟨by linarith, h1⟩),
          List.filter_nil]
      rfl
    · have h4 : (1:ℚ)/2 < p := not_le.mp h3
      rw [List.filter_cons_of_neg (by simp; intro h; linarith),
          List.filter_cons_of_pos (by simp; exact ⟨by linarith, h1⟩),
          List.filter_nil]
      rfl

/-! ## Claim theorems -/

/-- Claim C1: encoding the patient (age 63, Male, Typical Angina,
trestbps 145, chol 233, fbs True, restecg Normal, thalach 150,
exercise No pain, oldpeak 2.3, slope Downsloping, ca Normal,
thal Fixed Defect) yields exactly the row
[63, 145, 233, 150, 2.3, 1, 3, 1, 1, 0, 0, 0, 0] in that column order. -/
theorem C1_encode_scenario :
    encodeRow scenarioPatient =
    some [63, 145, 233, 150, 23/10, 1, 3, 1, 1, 0, 0, 0, 0] := rfl

/-- Claim C2: the needle value of the gauge equals the positive-class
probability; the two background bands make [0, 0.5) show the low-risk
color and [0.5, 1] the high-risk color, so probability one half falls in
the high-risk band; and the bar is red exactly when the label is 1,
green otherwise. -/
theorem C2_gauge (p : ℚ) (pred : ℤ) (h0 : 0 ≤ p) (h1 : p ≤ 1) :
    gaugeValue p = p ∧
    (gaugeBarColor pred = "red" ↔ pred = 1) ∧
    (gaugeBarColor pred = "green" ↔ pred ≠ 1) ∧
    bandAt gaugeSteps p =
      some (if p < 1/2 then "#c8f7c5" else "#f9c0c0") ∧
    bandAt gaugeSteps (1/2) = some "#f9c0c0" := by
  refine ⟨rfl, ?_, ?_, bandAt_gaugeSteps p h0 h1, ?_⟩
  · unfold gaugeBarColor
    split <;> simp_all
  · unfold gaugeBarColor
    split <;> simp_all
  · rw [bandAt_gaugeSteps (1/2) (by norm_num) (by norm_num)]
    norm_num

/-- Witness for C2 at probability one half and label 1. -/
theorem C2_gauge_witness :
    gaugeValue (1/2) = 1/2 ∧
    (gaugeBarColor 1 = "red" ↔ (1 : ℤ) = 1) ∧
    (gaugeBarColor 1 = "green" ↔ (1 : ℤ) ≠ 1) ∧
    bandAt gaugeSteps (1/2) =
      some (if (1:ℚ)/2 < 1/2 then "#c8f7c5" else "#f9c0c0") ∧
    bandAt gaugeSteps (1/2) = some "#f9c0c0" :=
  C2_gauge (1/2) 1 (by norm_num) (by norm_num)

/-- Claim C3: on any submission whose encoding succeeds, the report is a
single-row table whose columns are the 13 encoded feature columns followed
by prediction and risk_percent, with risk_percent = round(probability*100, 2),
offered as heart_risk_report.csv with MIME type text/csv. -/
theorem C3_report (m : Model) (pt : PatientInput) (row : List ℚ)
    (h : encodeRow pt = some row) :
    ∃ r, (runApp (some m) true pt).report = some r ∧
      r.columns = inputColumns ++ ["prediction", "risk_percent"] ∧
      r.columns.length = 15 ∧
      r.rows = [row ++ [(m.predict row : ℚ), round2 (m.predictProba row * 100)]] ∧
      r.rows.length = 1 ∧
      row.length = 13 ∧
      r.fileName = "heart_risk_report.csv" ∧
      r.mime = "text/csv" := by
  refine ⟨buildReport row (m.predict row) (m.predictProba row), ?_, rfl, rfl,
    rfl, rfl, encodeRow_length pt row h, rfl, rfl⟩
  simp [runApp, h]

/-- Witness for C3 with the scenario patient and the stand-in classifier. -/
theorem C3_report_witness :
    ∃ r, (runApp (some constModel) true scenarioPatient).report = some r ∧
      r.columns = inputColumns ++ ["prediction", "risk_percent"] ∧
      r.columns.length = 15 ∧
      r.rows = [[63, 145, 233, 150, 23/10, 1, 3, 1, 1, 0, 0, 0, 0] ++
        [(constModel.predict
            [63, 145, 233, 150, 23/10, 1, 3, 1, 1, 0, 0, 0, 0] : ℚ),
          round2 (constModel.predictProba
            [63, 145, 233, 150, 23/10, 1, 3, 1, 1, 0, 0, 0, 0] * 100)]] ∧
      r.rows.length = 1 ∧
      ([63, 145, 233, 150, 23/10, 1, 3, 1, 1, 0, 0, 0, 0] : List ℚ).length = 13 ∧
      r.fileName = "heart_risk_report.csv" ∧
      r.mime = "text/csv" :=
  C3_report constModel scenarioPatient
    [63, 145, 233, 150, 23/10, 1, 3, 1, 1, 0, 0, 0, 0] rfl

/-- Claim C4: every label offered by a categorical selection widget has an
entry in the corresponding encoding map, so the encoding never fails for
any input selectable through the form. -/
theorem C4_lookup_total :
    cpOptions.all (fun l => (cp_map.lookup l).isSome) = true ∧
    restecgOptions.all (fun l => (restecg_map.lookup l).isSome) = true ∧
    exerciseOptions.all (fun l => (exang_map.lookup l).isSome) = true ∧
    slopeOptions.all (fun l => (slope_map.lookup l).isSome) = true ∧
    caOptions.all (fun l => (ca_map.lookup l).isSome) = true ∧
    thalOptions.all (fun l => (thal_map.lookup l).isSome) = true := by
  decide

/-- Claim C5: every encoding table assigns exactly one code per label
(no duplicate keys) and is injective (no duplicate codes). -/
theorem C5_maps_injective :
    (cp_map.map Prod.fst).Nodup ∧ (cp_map.map Prod.snd).Nodup ∧
    (restecg_map.map Prod.fst).Nodup ∧ (restecg_map.map Prod.snd).Nodup ∧
    (exang_map.map Prod.fst).Nodup ∧ (exang_map.map Prod.snd).Nodup ∧
    (slope_map.map Prod.fst).Nodup ∧ (slope_map.map Prod.snd).Nodup ∧
    (ca_map.map Prod.fst).Nodup ∧ (ca_map.map Prod.snd).Nodup ∧
    (thal_map.map Prod.fst).Nodup ∧ (thal_map.map Prod.snd).Nodup ∧
    sex_code "Male" ≠ sex_code "Female" ∧
    fbs_code "True" ≠ fbs_code "False" := by
  decide

/-- Claim C6: when loading the model raises, the script shows an error and
halts before the form is rendered; no prediction is made and no report
is reachable, for any would-be submission state. -/
theorem C6_load_failure (submitted : Bool) (pt : PatientInput) :
    runApp none submitted pt =
      { errorShown := true, halted := true, formRendered := false,
        predictionMade := false, report := none } := rfl

/-- Claim C7: the cholesterol bar is salmon exactly when chol is strictly
greater than 200 and seagreen otherwise; chol 200 is seagreen, chol 201 is
salmon; the reference line sits at 200. -/
theorem C7_chol_flag (c : ℤ) :
    (cholBarColor c = "salmon" ↔ 200 < c) ∧
    (cholBarColor c = "seagreen" ↔ ¬ 200 < c) ∧
    cholBarColor 200 = "seagreen" ∧
    cholBarColor 201 = "salmon" ∧
    cholReferenceLine = 200 := by
  refine ⟨?_, ?_, rfl, rfl, rfl⟩ <;>
    · unfold cholBarColor
      split <;> simp_all

/-- Claim C8: the age input accepts exactly the integers from 1 to 120:
1 and 120 are accepted, 0 and 121 are rejected. -/
theorem C8_age_bounds :
    ageAccepted 1 = true ∧ ageAccepted 120 = true ∧
    ageAccepted 0 = false ∧ ageAccepted 121 = false ∧
    ∀ a : ℤ, ageAccepted a = true ↔ (1 ≤ a ∧ a ≤ 120) := by
  refine ⟨rfl, rfl, rfl, rfl, fun a => ?_⟩
  simp [ageAccepted]

/-- Claim C9: the complete per-field encoding tables are exactly as listed:
Male to 1, Female to 0; True to 1, False to 0; Typical Angina to 3,
Atypical Angina to 1, Non Anginal Pain to 2, Asymptomatic to 0;
Abnormality to 0, Normal to 1, Left ventricular hypertrophy to 2;
No pain to 0, Pain to 1; Downsloping to 0, Upsloping to 2, Flat to 1;
Normal to 0 through Four vessel colored to 4; Reversible defect to 2,
Normal to 1, Fixed Defect to 0, Unknown to 3. -/
theorem C9_encoding_tables :
    sex_code "Male" = 1 ∧ sex_code "Female" = 0 ∧
    fbs_code "True" = 1 ∧ fbs_code "False" = 0 ∧
    cp_map.lookup "Typical Angina" = some 3 ∧
    cp_map.lookup "Atypical Angina" = some 1 ∧
    cp_map.lookup "Non Anginal Pain" = some 2 ∧
    cp_map.lookup "Asymptomatic" = some 0 ∧
    restecg_map.lookup "Abnormality" = some 0 ∧
    restecg_map.lookup "Normal" = some 1 ∧
    restecg_map.lookup "Left ventricular hypertrophy" = some 2 ∧
    exang_map.lookup "No pain" = some 0 ∧
    exang_map.lookup "Pain" = some 1 ∧
    slope_map.lookup "Downsloping" = some 0 ∧
    slope_map.lookup "Upsloping" = some 2 ∧
    slope_map.lookup "Flat" = some 1 ∧
    ca_map.lookup "Normal" = some 0 ∧
    ca_map.lookup "One vessel colored" = some 1 ∧
    ca_map.lookup "Two vessels colored" = some 2 ∧
    ca_map.lookup "Three vessels colored" = some 3 ∧
    ca_map.lookup "Four vessel colored" = some 4 ∧
    thal_map.lookup "Reversible defect" = some 2 ∧
    thal_map.lookup "Normal" = some 1 ∧
    thal_map.lookup "Fixed Defect" = some 0 ∧
    thal_map.lookup "Unknown" = some 3 := by
  decide

/-- Claim C10: the remaining numeric inputs are bounded exactly by
trestbps in [80, 200], chol in [100, 600], thalach in [60, 220] and
oldpeak in [0, 10]; boundary values are accepted and the values one step
outside are rejected. -/
theorem C10_numeric_bounds :
    (∀ x : ℤ, trestbpsAccepted x = true ↔ (80 ≤ x ∧ x ≤ 200)) ∧
    (∀ x : ℤ, cholAccepted x = true ↔ (100 ≤ x ∧ x ≤ 600)) ∧
    (∀ x : ℤ, thalachAccepted x = true ↔ (60 ≤ x ∧ x ≤ 220)) ∧
    (∀ x : ℚ, oldpeakAccepted x = true ↔ (0 ≤ x ∧ x ≤ 10)) ∧
    trestbpsAccepted 79 = false ∧ trestbpsAccepted 80 = true ∧
    trestbpsAccepted 200 = true ∧ trestbpsAccepted 201 = false ∧
    cholAccepted 99 = false ∧ cholAccepted 100 = true ∧
    cholAccepted 600 = true ∧ cholAccepted 601 = false ∧
    thalachAccepted 59 = false ∧ thalachAccepted 60 = true ∧
    thalachAccepted 220 = true ∧ thalachAccepted 221 = false ∧
    oldpeakAccepted (-1/10) = false ∧ oldpeakAccepted 0 = true ∧
    oldpeakAccepted 10 = true ∧ oldpeakAccepted (101/10) = false := by
  refine ⟨fun x => by simp [trestbpsAccepted], fun x => by simp [cholAccepted],
    fun x => by simp [thalachAccepted], fun x => by simp [oldpeakAccepted],
    rfl, rfl, rfl, rfl, rfl, rfl, rfl, rfl, rfl, rfl, rfl, rfl,
    ?_, ?_, ?_, ?_⟩ <;>
    · unfold oldpeakAccepted
      norm_num

end HeartApp
